import Mathlib

/-!
Verification development for the `lingq-library` repository.

The repository has two components:

* an API client (`src/index.ts`, class `LingqAPI`) that owns session
  credentials, builds per-request headers, issues HTTP calls and validates
  JSON responses with `typia.assert<T>` against the declared TypeScript
  record shapes; and
* a sequential dependent test runner (`test/testinglib.ts`) with blocking /
  non-blocking tests and groups.

This file gives a shallow embedding of both.  JSON documents are modelled by
an inductive `Json` type; each `typia.assert<T>` call is modelled by a
boolean structural validator translated field-by-field from the TypeScript
type declaration it checks (`LingQ.d.ts` and the local types of
`src/index.ts`).  `typia.assert` permits superfluous properties, so the
validators only require the declared fields to be present with the right
shapes.  The network is modelled by passing the `fetch` response explicitly
to each method; client methods are state-passing functions returning the
post-call client state together with the method's outcome (`Except` models
`throw`).  The test runner is pure structural recursion over the test tree;
the global `results` accumulator of the source becomes the returned list of
`TestResult`s, in push order.
-/

/-- A JSON value.  JSON numbers are abstracted as integers: every shape
    validator below only tests *numberhood*, never a numeric range, so the
    abstraction is faithful for all properties stated in this file. -/
inductive Json where
  | null : Json
  | bool : Bool → Json
  | num : Int → Json
  | str : String → Json
  | arr : List Json → Json
  | obj : List (String × Json) → Json

/-- Property lookup on a JSON object (first binding wins, as in a JS object
    literal read).  Non-objects have no properties. -/
def Json.getField : Json → String → Option Json
  | .obj fields, key => lookup fields key
  | _, _ => none
where lookup : List (String × Json) → String → Option Json
  | [], _ => none
  | (k, v) :: rest, key => if k == key then some v else lookup rest key

/-- `typeof x === "number"`. -/
def Json.isNum : Json → Bool
  | .num _ => true
  | _ => false

/-- `typeof x === "string"`. -/
def Json.isStr : Json → Bool
  | .str _ => true
  | _ => false

/-- `typeof x === "boolean"`. -/
def Json.isBool : Json → Bool
  | .bool _ => true
  | _ => false

/-- `x === null`. -/
def Json.isNull : Json → Bool
  | .null => true
  | _ => false

/-- TypeScript `string | null`. -/
def Json.isStrOrNull (j : Json) : Bool := j.isStr || j.isNull

/-- TypeScript `number | null`. -/
def Json.isNumOrNull (j : Json) : Bool := j.isNum || j.isNull

/-- TypeScript `boolean | null`. -/
def Json.isBoolOrNull (j : Json) : Bool := j.isBool || j.isNull

/-- TypeScript `string[]`. -/
def Json.isStrArr : Json → Bool
  | .arr xs => xs.all Json.isStr
  | _ => false

/-- TypeScript `unknown[]` (typia only checks arrayness). -/
def Json.isAnyArr : Json → Bool
  | .arr _ => true
  | _ => false

/-- The declared field `key` is present and satisfies `p`. -/
def Json.fieldIs (j : Json) (key : String) (p : Json → Bool) : Bool :=
  match j.getField key with
  | some v => p v
  | none => false

/-- The declared field `key` is present and equals the string literal `s`
    (typia checks TypeScript literal types by equality). -/
def Json.fieldIsLit (j : Json) (key s : String) : Bool :=
  j.fieldIs key (fun v =>
    match v with
    | .str t => t == s
    | _ => false)

/-- The declared field `key` is an array all of whose elements satisfy `p`. -/
def Json.fieldIsArrOf (j : Json) (key : String) (p : Json → Bool) : Bool :=
  j.fieldIs key (fun v =>
    match v with
    | .arr xs => xs.all p
    | _ => false)

/-- The declared field `key` is an object (keyed mapping) all of whose
    property values satisfy `p` — the shape of a TypeScript numeric index
    signature `{ [key: number]: T }` as typia checks it. -/
def Json.fieldIsMapOf (j : Json) (key : String) (p : Json → Bool) : Bool :=
  j.fieldIs key (fun v =>
    match v with
    | .obj fields => fields.all (fun kv => p kv.2)
    | _ => false)

/-! ## Shape validators for `LingQ.d.ts`

Translated field-by-field from the interfaces in `src/LingQ.d.ts`; these are
the structures `typia.assert<Lesson>` / `typia.assert<Sentence>` check. -/

/-- Element shape of `Sentence.translations`:
    `{ language: string; text: string; type: string }`. -/
def isTranslation (j : Json) : Bool :=
  j.fieldIs "language" Json.isStr &&
  j.fieldIs "text" Json.isStr &&
  j.fieldIs "type" Json.isStr

/-- `Sentence.timestamp : [number | null, number | null]` — a two-element
    tuple of nullable numbers. -/
def isTimestampPair : Json → Bool
  | .arr [a, b] => a.isNumOrNull && b.isNumOrNull
  | _ => false

/-- `interface Sentence` of `LingQ.d.ts`. -/
def isSentence (j : Json) : Bool :=
  j.fieldIs "index" Json.isNum &&
  j.fieldIs "text" Json.isStr &&
  j.fieldIs "cleanText" Json.isStr &&
  j.fieldIsArrOf "translations" isTranslation &&
  j.fieldIs "timestamp" isTimestampPair

/-- `interface Paragraph` of `LingQ.d.ts`. -/
def isParagraph (j : Json) : Bool :=
  j.fieldIs "index" Json.isNum &&
  j.fieldIs "style" Json.isStr &&
  j.fieldIsArrOf "sentences" isSentence

/-- `interface Collection` of `LingQ.d.ts`. -/
def isCollection (j : Json) : Bool :=
  j.fieldIs "id" Json.isNum &&
  j.fieldIs "url" Json.isStr &&
  j.fieldIs "title" Json.isStr &&
  j.fieldIs "description" Json.isStr &&
  j.fieldIs "audio" Json.isStrOrNull &&
  j.fieldIs "imageUrl" Json.isStr &&
  j.fieldIs "originalImageUrl" Json.isStr &&
  j.fieldIs "completedRatio" Json.isNum &&
  j.fieldIs "completedTimes" Json.isNumOrNull &&
  j.fieldIs "lessonsCount" Json.isNum &&
  j.fieldIs "newWordsCount" Json.isNum &&
  j.fieldIs "difficulty" Json.isNum &&
  j.fieldIs "level" Json.isStr &&
  j.fieldIs "price" Json.isNum &&
  j.fieldIs "providerImageUrl" Json.isStr &&
  j.fieldIs "sharedById" Json.isNum &&
  j.fieldIs "sharedByName" Json.isStr &&
  j.fieldIs "sharedByImageUrl" Json.isStr &&
  j.fieldIs "sourceURLEnabled" Json.isBoolOrNull &&
  j.fieldIs "sourceURL" Json.isStrOrNull &&
  j.fieldIs "tags" Json.isStrArr &&
  j.fieldIs "external_type" Json.isStrOrNull &&
  j.fieldIs "rosesCount" Json.isNum &&
  j.fieldIs "roseGiven" Json.isBool &&
  j.fieldIsLit "type" "collection" &&
  j.fieldIs "scheduledForDeletion" Json.isBool

/-- `interface Lesson` of `LingQ.d.ts` — the shape `typia.assert<Lesson>`
    checks in `lessonGet`. -/
def isLesson (j : Json) : Bool :=
  j.fieldIs "id" Json.isNum &&
  j.fieldIs "title" Json.isStr &&
  j.fieldIs "status" (fun v =>
    match v with
    | .str t => t == "private" || t == "public"
    | _ => false) &&
  j.fieldIs "level" Json.isNum &&
  j.fieldIs "collection" isCollection &&
  j.fieldIs "provider" Json.isStrOrNull &&
  j.fieldIs "image" Json.isStr &&
  j.fieldIs "audio" Json.isStrOrNull &&
  j.fieldIs "duration" Json.isNum &&
  j.fieldIs "description" Json.isStr &&
  j.fieldIs "accent" Json.isStrOrNull &&
  j.fieldIs "shelves" Json.isStrArr &&
  j.fieldIs "originalUrl" Json.isStr &&
  j.fieldIs "external_audio" Json.isStr &&
  j.fieldIs "tags" Json.isStrArr &&
  j.fieldIs "video" Json.isStr &&
  j.fieldIs "price" Json.isNum &&
  j.fieldIs "originalImageUrl" Json.isStr &&
  j.fieldIs "imageUrl" Json.isStr &&
  j.fieldIs "isProtected" Json.isBoolOrNull &&
  j.fieldIs "isFeatured" Json.isBoolOrNull &&
  j.fieldIs "isHidden" Json.isBool &&
  j.fieldIs "language" Json.isStr &&
  j.fieldIsArrOf "paragraphs" isParagraph

/-! ## Shape validators for the local types of `src/index.ts`

Fields of TypeScript type `unknown` (including unions with `unknown`, which
collapse to `unknown`) carry no structural constraint, so no check is
emitted for them; `"librarian" | string` collapses to `string`. -/

/-- `type LessonCreateReturnType` of `src/index.ts` — the shape
    `typia.assert<LessonCreateReturnType>` checks in `lessonCreate`. -/
def isLessonCreateReturn (j : Json) : Bool :=
  j.fieldIs "id" Json.isNum &&
  j.fieldIs "contentId" Json.isNum &&
  j.fieldIs "collectionId" Json.isNum &&
  j.fieldIs "collectionTitle" Json.isStr &&
  j.fieldIs "url" Json.isStr &&
  j.fieldIs "originalUrl" Json.isNull &&
  j.fieldIs "imageUrl" Json.isStr &&
  j.fieldIs "originalImageUrl" Json.isStr &&
  j.fieldIs "providerImageUrl" Json.isStr &&
  j.fieldIs "title" Json.isStr &&
  j.fieldIs "description" Json.isStr &&
  j.fieldIs "duration" Json.isNum &&
  j.fieldIs "audioUrl" Json.isStrOrNull &&
  j.fieldIs "audioPending" Json.isBool &&
  j.fieldIs "giveRoseUrl" Json.isStr &&
  j.fieldIs "wordCount" Json.isNum &&
  j.fieldIs "uniqueWordCount" Json.isNum &&
  j.fieldIs "pubDate" Json.isStr &&
  j.fieldIs "sharedById" Json.isNum &&
  j.fieldIs "sharedByName" Json.isStr &&
  j.fieldIs "sharedByRole" Json.isStr &&
  j.fieldIs "pos" Json.isNum &&
  j.fieldIs "price" Json.isNum &&
  j.fieldIs "lessonURL" Json.isStr

/-- `type LessonStats` of `src/index.ts`. -/
def isLessonStats (j : Json) : Bool :=
  j.fieldIs "listenTimes" Json.isNum &&
  j.fieldIs "readTimes" Json.isNum &&
  j.fieldIs "cardsCreated" Json.isNum

/-- `type LessonCardHint` of `src/index.ts` (`deteced_locale` is `unknown`). -/
def isLessonCardHint (j : Json) : Bool :=
  j.fieldIs "approved" Json.isBool &&
  j.fieldIs "creator_id" Json.isNum &&
  j.fieldIs "flagged" Json.isBool &&
  j.fieldIs "id" Json.isNum &&
  j.fieldIs "is_google_translate" Json.isBool &&
  j.fieldIs "locale" Json.isStr &&
  j.fieldIs "popularity" Json.isNum &&
  j.fieldIs "term_id" Json.isNum &&
  j.fieldIs "text" Json.isStr &&
  j.fieldIs "word_id" Json.isNum

/-- `type LessonWordHint` of `src/index.ts`. -/
def isLessonWordHint (j : Json) : Bool :=
  j.fieldIs "flagged" Json.isBool &&
  j.fieldIs "id" Json.isNum &&
  j.fieldIs "is_google_translate" Json.isBool &&
  j.fieldIs "popularity" Json.isNum &&
  j.fieldIs "text" Json.isStr

/-- `type LessonWord` of `src/index.ts`. -/
def isLessonWord (j : Json) : Bool :=
  j.fieldIsArrOf "hints" isLessonWordHint &&
  j.fieldIs "importance" Json.isNum &&
  j.fieldIs "status" Json.isStr &&
  j.fieldIs "tags" Json.isAnyArr &&
  j.fieldIs "text" Json.isStr

/-- `type LessonCard` of `src/index.ts` (`transliteration` is `unknown`). -/
def isLessonCard (j : Json) : Bool :=
  j.fieldIs "extended_status" Json.isNum &&
  j.fieldIs "fragment" Json.isStr &&
  j.fieldIs "gTags" Json.isAnyArr &&
  j.fieldIsArrOf "hints" isLessonCardHint &&
  j.fieldIs "importance" Json.isNum &&
  j.fieldIs "notes" Json.isStr &&
  j.fieldIs "pk" Json.isNum &&
  j.fieldIs "srs_due_date" Json.isStr &&
  j.fieldIs "status" Json.isNum &&
  j.fieldIs "term" Json.isStr &&
  j.fieldIs "words" Json.isStrArr &&
  j.fieldIs "writings" Json.isStrArr

/-- `type LessonWordsGetReturnValue` of `src/index.ts`: two keyed mappings,
    `cards` valued in `LessonCard` and `words` valued in `LessonWord`. -/
def isLessonWordsGetReturnValue (j : Json) : Bool :=
  j.fieldIsMapOf "cards" isLessonCard &&
  j.fieldIsMapOf "words" isLessonWord

/-- The nested `language` record of `TTSReturnType`. -/
def isTTSLanguage (j : Json) : Bool :=
  j.fieldIs "id" Json.isNum &&
  j.fieldIs "url" Json.isStr &&
  j.fieldIs "code" Json.isStr &&
  j.fieldIs "title" Json.isStr

/-- `type TTSReturnType` of `src/index.ts`.  `app_name` and `voice` are
    declared as the string literal types `"msspeak"` and `"he-IL:Female"`,
    so typia checks them by equality; `voice_type`, `ctime` (a union with
    `unknown`), `ftime` and `fixed` are unconstrained. -/
def isTTSReturnType (j : Json) : Bool :=
  j.fieldIs "id" Json.isNum &&
  j.fieldIs "language" isTTSLanguage &&
  j.fieldIsLit "app_name" "msspeak" &&
  j.fieldIsLit "voice" "he-IL:Female" &&
  j.fieldIs "text" Json.isStr &&
  j.fieldIs "audio" Json.isStr

/-! ## The API client (`src/index.ts`, class `LingqAPI`)

The client is embedded state-passing: each method takes the pre-call client
and the `fetch` response for the one request it issues, and returns the
post-call client together with the method's outcome.  `Except ApiError`
models `throw`; methods that return the raw `Response` object return the
`HttpResponse` unchanged.  Request URLs and bodies are built from the same
state but do not influence any method's result or state change, so they are
not carried in the results. -/

/-- The header record built per request.  The source's `commonHeaders` field
    type lists eleven always-present string headers and three optional ones
    (`Cookie`, `Content-Type`, `X-CSRFToken`). -/
structure Headers where
  accept : String
  priority : String
  secChUa : String
  secChUaMobile : String
  secChUaPlatform : String
  secFetchDest : String
  secFetchMode : String
  secFetchSite : String
  xLingqApp : String
  referer : String
  referrerPolicy : String
  cookie : Option String
  contentType : Option String
  xCsrfToken : Option String
deriving DecidableEq

/-- `private static VERSION = 'Web/5.3.46'`. -/
def LingqAPI.VERSION : String := "Web/5.3.46"

/-- The instance fields of `class LingqAPI`. -/
structure LingqAPI where
  languageCode : String
  lessonCode : Int
  csrfToken : String
  sessionId : String
  commonHeaders : Headers
deriving DecidableEq

/-- The `LingqAPI` constructor: stores the four credentials and derives the
    fixed common headers once (the three optional headers start absent). -/
def LingqAPI.make (languageCode : String) (lessonCode : Int)
    (csrfToken : String) (sessionId : String) : LingqAPI :=
  { languageCode := languageCode
    lessonCode := lessonCode
    csrfToken := csrfToken
    sessionId := sessionId
    commonHeaders :=
      { accept := "application/json"
        priority := "u=1, i"
        secChUa := "\"Google Chrome\";v=\"131\", \"Chromium\";v=\"131\", \"Not_A Brand\";v=\"24\""
        secChUaMobile := "?0"
        secChUaPlatform := "\"macOS\""
        secFetchDest := "empty"
        secFetchMode := "cors"
        secFetchSite := "same-origin"
        xLingqApp := LingqAPI.VERSION
        referer := "https://www.lingq.com/en/learn/" ++ languageCode ++
          "/web/editor/" ++ toString lessonCode
        referrerPolicy := "strict-origin-when-cross-origin"
        cookie := none
        contentType := none
        xCsrfToken := none } }

/-- The `Cookie` header string `buildHeaders` installs:
    `csrftoken=<csrfToken>; wwwlingqcomsa=<sessionId>;`. -/
def LingqAPI.cookieString (api : LingqAPI) : String :=
  "csrftoken=" ++ api.csrfToken ++ "; wwwlingqcomsa=" ++ api.sessionId ++ ";"

/-- `private buildHeaders(\x7b isPost = false, includeCsrf = false \x7d)`:
    spread-copies `commonHeaders`, always installs the `Cookie` header, adds
    `Content-Type: application/json` when `isPost`, and `X-CSRFToken` when
    `includeCsrf`. -/
def LingqAPI.buildHeaders (api : LingqAPI) ( isPost includeCsrf : Bool) : Headers :=
  let headers := { api.commonHeaders with cookie := some api.cookieString }
  let headers :=
    if isPost then { headers with contentType := some "application/json" } else headers
  if includeCsrf then { headers with xCsrfToken := some api.csrfToken } else headers

/-- State-passing form of `buildHeaders`: the result headers together with
    the post-call client.  The source method assigns only to the local
    spread copy `const headers = \x7b ...this.commonHeaders \x7d` and never to
    `this` or `this.commonHeaders`, so the post-call client state is the
    pre-call client state. -/
def LingqAPI.buildHeadersCall (api : LingqAPI) ( isPost includeCsrf : Bool) :
    Headers × LingqAPI :=
  (api.buildHeaders isPost includeCsrf, api)

/-- How a client method call can throw. -/
inductive ApiError where
  /-- `throw new Error(msg)` issued after an explicit `response.ok` check. -/
  | http (msg : String) : ApiError
  /-- `response.json()` rejected (body is not JSON). -/
  | parseFail : ApiError
  /-- `typia.assert<T>` threw: the parsed body fails shape validation. -/
  | badShape : ApiError
deriving DecidableEq

/-- The part of a `fetch` response the client inspects: the `ok` flag and
    the parsed JSON body (`none` models a body `response.json()` rejects). -/
structure HttpResponse where
  ok : Bool
  body : Option Json

/-- `async lessonGet(lessonCode?: number)`: first redirects the client's
    current lesson to the optional override (`lessonCode ?? this.lessonCode`),
    then issues the GET; throws `"Lesson doesn't exist."` when the response
    is not ok, otherwise parses the body and `typia.assert<Lesson>`s it. -/
def LingqAPI.lessonGet (api : LingqAPI) (lessonCode : Option Int)
    (resp : HttpResponse) : LingqAPI × Except ApiError Json :=
  let api' := { api with lessonCode := lessonCode.getD api.lessonCode }
  if !resp.ok then
    (api', .error (.http "Lesson doesn't exist."))
  else
    match resp.body with
    | none => (api', .error .parseFail)
    | some lesson =>
        if isLesson lesson then (api', .ok lesson) else (api', .error .badShape)

/-- `async lessonCreate(lessonParams)`: POSTs the params; throws
    `Failed to create lesson: ...` when the response is not ok, otherwise
    parses the body and `typia.assert<LessonCreateReturnType>`s it.  The
    method body never assigns `this.lessonCode` (or any other instance
    field), so the post-call client state is the pre-call one. -/
def LingqAPI.lessonCreate (api : LingqAPI) (lessonParams : Json)
    (resp : HttpResponse) : LingqAPI × Except ApiError Json :=
  if !resp.ok then
    (api, .error (.http "Failed to create lesson: [object Response]"))
  else
    match resp.body with
    | none => (api, .error .parseFail)
    | some lessonCreationDetails =>
        if isLessonCreateReturn lessonCreationDetails then
          (api, .ok lessonCreationDetails)
        else (api, .error .badShape)

/-- `async lessonDelete(lessonId)`: returns the raw response with no ok
    check and no validation. -/
def LingqAPI.lessonDelete (api : LingqAPI) (lessonId : Int)
    (resp : HttpResponse) : LingqAPI × HttpResponse :=
  (api, resp)

/-- `async lessonStatsReadTimeIncrement(incrementAmount, automatic, app)`:
    throws `'Failed to increment read time'` when not ok, otherwise
    validates a `LessonStats`. -/
def LingqAPI.lessonStatsReadTimeIncrement (api : LingqAPI)
    (incrementAmount : Int) (automatic : Bool) (app : String)
    (resp : HttpResponse) : LingqAPI × Except ApiError Json :=
  if !resp.ok then
    (api, .error (.http "Failed to increment read time"))
  else
    match resp.body with
    | none => (api, .error .parseFail)
    | some lessonStats =>
        if isLessonStats lessonStats then (api, .ok lessonStats)
        else (api, .error .badShape)

/-- `async lessonStatsListenTimeIncrement(incrementAmount, automatic, app)`:
    identical handling; the source's error message is the same
    `'Failed to increment read time'` string (copy-paste in the source). -/
def LingqAPI.lessonStatsListenTimeIncrement (api : LingqAPI)
    (incrementAmount : Int) (automatic : Bool) (app : String)
    (resp : HttpResponse) : LingqAPI × Except ApiError Json :=
  if !resp.ok then
    (api, .error (.http "Failed to increment read time"))
  else
    match resp.body with
    | none => (api, .error .parseFail)
    | some lessonStats =>
        if isLessonStats lessonStats then (api, .ok lessonStats)
        else (api, .error .badShape)

/-- `async updateCardStatus(cardId, status, content, extended_status)`:
    throws `'Failed to update card status'` when not ok, otherwise validates
    a `LessonCard`. -/
def LingqAPI.updateCardStatus (api : LingqAPI) (cardId : Int) (status : String)
    (content : Int) ( extended_status : Int) (resp : HttpResponse) :
    LingqAPI × Except ApiError Json :=
  if !resp.ok then
    (api, .error (.http "Failed to update card status"))
  else
    match resp.body with
    | none => (api, .error .parseFail)
    | some card =>
        if isLessonCard card then (api, .ok card) else (api, .error .badShape)

/-- `async lessonBookmarkCreate(wordIndex, client)`: throws
    `'Failed to create bookmark'` when not ok, otherwise returns
    `response.ok` (the API returns no body for this request). -/
def LingqAPI.lessonBookmarkCreate (api : LingqAPI) (wordIndex : Int)
    (client : String) (resp : HttpResponse) : LingqAPI × Except ApiError Bool :=
  if !resp.ok then
    (api, .error (.http "Failed to create bookmark"))
  else
    (api, .ok resp.ok)

/-- `async lessonWordsGet()`: parses the body and
    `typia.assert<LessonWordsGetReturnValue>`s it.  The source performs no
    `response.ok` check for this operation. -/
def LingqAPI.lessonWordsGet (api : LingqAPI) (resp : HttpResponse) :
    LingqAPI × Except ApiError Json :=
  match resp.body with
  | none => (api, .error .parseFail)
  | some words =>
      if isLessonWordsGetReturnValue words then (api, .ok words)
      else (api, .error .badShape)

/-- `async sentenceTimestampUpdate(index, timestamp)`: POSTs an `update`
    action through `_postSentences`; throws
    `'Failed to update sentence timestamp'` when not ok, otherwise validates
    a `Sentence`. -/
def LingqAPI.sentenceTimestampUpdate (api : LingqAPI) (index : Int)
    (timestamp : Int × Int) (resp : HttpResponse) :
    LingqAPI × Except ApiError Json :=
  if !resp.ok then
    (api, .error (.http "Failed to update sentence timestamp"))
  else
    match resp.body with
    | none => (api, .error .parseFail)
    | some newSentence =>
        if isSentence newSentence then (api, .ok newSentence)
        else (api, .error .badShape)

/-- `async sentenceTextUpdate(index, text)`: returns the raw
    `_postSentences` response, with no ok check and no validation. -/
def LingqAPI.sentenceTextUpdate (api : LingqAPI) (index : Int) (text : String)
    (resp : HttpResponse) : LingqAPI × HttpResponse :=
  (api, resp)

/-- `async sentenceCreate(index, text, after)`: throws
    `'Failed to create sentence'` when not ok, otherwise validates a
    `Sentence`. -/
def LingqAPI.sentenceCreate (api : LingqAPI) (index : Int) (text : String)
    (after : Bool) (resp : HttpResponse) : LingqAPI × Except ApiError Json :=
  if !resp.ok then
    (api, .error (.http "Failed to create sentence"))
  else
    match resp.body with
    | none => (api, .error .parseFail)
    | some newSentence =>
        if isSentence newSentence then (api, .ok newSentence)
        else (api, .error .badShape)

/-- `async sentenceDelete(index)`: returns the raw `_postSentences`
    response (the API returns no body for delete requests). -/
def LingqAPI.sentenceDelete (api : LingqAPI) (index : Int)
    (resp : HttpResponse) : LingqAPI × HttpResponse :=
  (api, resp)

/-- `async sentenceBreak(index)`: returns the raw `_postSentences`
    response. -/
def LingqAPI.sentenceBreak (api : LingqAPI) (index : Int)
    (resp : HttpResponse) : LingqAPI × HttpResponse :=
  (api, resp)

/-- `async getTTSSpeech(text, voice, extraOptions?)`: throws
    `'Failed to get TTS speech'` when not ok, otherwise validates a
    `TTSReturnType`.  `extraOptions` only affects the request URL. -/
def LingqAPI.getTTSSpeech (api : LingqAPI) (text voice : String)
    (extraOptions : Option (Option String × Option String))
    (resp : HttpResponse) : LingqAPI × Except ApiError Json :=
  if !resp.ok then
    (api, .error (.http "Failed to get TTS speech"))
  else
    match resp.body with
    | none => (api, .error .parseFail)
    | some ttsResponse =>
        if isTTSReturnType ttsResponse then (api, .ok ttsResponse)
        else (api, .error .badShape)

/-! ## The sequential dependent test runner (`test/testinglib.ts`)

A test body `() => Promise<void>` either resolves or rejects with an error
message, so it is embedded as its outcome `Except String Unit` (the runner
records `e.message`).  The global `results` array becomes the returned list
of `TestResult`s, in push order; the `Bool` returned alongside is the
"blocked" signal of `runTestCase`. -/

/-- A `TestCase` is either an individual `Test` or a `TestGroup`. -/
inductive TestCase where
  /-- `interface Test`: name, blocking flag, async body (embedded as its
      outcome). -/
  | test (name : String) (blocking : Bool) (fn : Except String Unit) : TestCase
  /-- `interface TestGroup`: name, blocking flag, ordered children. -/
  | group (name : String) (blocking : Bool) (tests : List TestCase) : TestCase

/-- `interface TestResult`: `\x7b name, passed, error? \x7d`. -/
structure TestResult where
  name : String
  passed : Bool
  error : Option String
deriving DecidableEq

/-- `runTest`: run the body; on success push a pass and return `false`; on
    failure push a fail carrying the message and return the test's
    `blocking` flag. -/
def runTest (name : String) (blocking : Bool) (fn : Except String Unit) :
    List TestResult × Bool :=
  match fn with
  | .ok _ => ([⟨name, true, none⟩], false)
  | .error msg => ([⟨name, false, some msg⟩], blocking)

/-- The reason string `skipTestCase` gives every child of a skipped group:
    `Skipped due to parent group "<parent>" being blocked`. -/
def skipChildReason (parent : String) : String :=
  "Skipped due to parent group \"" ++ parent ++ "\" being blocked"

mutual
/-- `skipTestCase`: a skipped test is recorded as a non-passed result whose
    `error` is the given reason; a skipped group is not recorded itself, and
    each of its children is recursively skipped with the reason rebuilt from
    the group's own name (the incoming reason is dropped). -/
def skipTestCase : TestCase → String → List TestResult
  | .test name _ _, reason => [⟨name, false, some reason⟩]
  | .group name _ tests, _ => skipAll name tests
/-- The `for (const child of testCase.tests)` loop inside `skipTestCase`. -/
def skipAll (parent : String) : List TestCase → List TestResult
  | [] => []
  | child :: rest =>
      skipTestCase child (skipChildReason parent) ++ skipAll parent rest
end

/-- The reason string `runGroup` gives a child skipped after a blocking
    failure: `Skipped due to previous blocking failure in group "<gname>"`. -/
def blockedReason (gname : String) : String :=
  "Skipped due to previous blocking failure in group \"" ++ gname ++ "\""

mutual
/-- `runTestCase`: dispatch to `runTest` for tests; for groups, run the
    children loop with `groupBlocked` initially `false` and return
    `group.blocking ? groupBlocked : false`. -/
def runTestCase : TestCase → List TestResult × Bool
  | .test name blocking fn => runTest name blocking fn
  | .group name blocking tests =>
      let r := runLoop name blocking tests false
      (r.1, if blocking then r.2 else false)
/-- The `for (const testCase of group.tests)` loop of `runGroup`: when the
    group is blocking and a blocking failure was already seen, skip the
    child; otherwise run it and, in a blocking group, latch its blocked
    signal into `groupBlocked`.  Returns the pushed results and the final
    `groupBlocked`. -/
def runLoop (gname : String) (gblocking : Bool) :
    List TestCase → Bool → List TestResult × Bool
  | [], groupBlocked => ([], groupBlocked)
  | testCase :: rest, groupBlocked =>
      if gblocking && groupBlocked then
        let rs := skipTestCase testCase (blockedReason gname)
        let r := runLoop gname gblocking rest groupBlocked
        (rs ++ r.1, r.2)
      else
        let r0 := runTestCase testCase
        let groupBlocked' := if gblocking && r0.2 then true else groupBlocked
        let r := runLoop gname gblocking rest groupBlocked'
        (r0.1 ++ r.1, r.2)
end

/-- `runTests`: run every root test case in registration order, ignoring
    the blocked signals of the roots. -/
def runTests : List TestCase → List TestResult
  | [] => []
  | testCase :: rest => (runTestCase testCase).1 ++ runTests rest

/-- The results `runGroup` pushes for the children remaining after a
    blocking failure: each is skipped with the group's `blockedReason`. -/
def skipRemaining (gname : String) : List TestCase → List TestResult
  | [] => []
  | testCase :: rest =>
      skipTestCase testCase (blockedReason gname) ++ skipRemaining gname rest

/-! ## Substring occurrence

Used to state that a recorded skip reason references a group's name. -/

/-- `needle` is a prefix of `hay` (on character lists). -/
def prefixList : List Char → List Char → Bool
  | [], _ => true
  | _ :: _, [] => false
  | a :: as, b :: bs => a == b && prefixList as bs

/-- `needle` occurs contiguously somewhere in `hay`. -/
def occursIn (needle : List Char) : List Char → Bool
  | [] => prefixList needle []
  | hay@(_ :: rest) => prefixList needle hay || occursIn needle rest

/-- The string `s` mentions the string `sub` (contiguous occurrence). -/
def mentions (s sub : String) : Bool := occursIn sub.data s.data

/-! ## Concrete fixtures

Closed JSON documents and test trees used to instantiate the theorems at
concrete inputs. -/

/-- A structurally valid `Sentence` document. -/
def sampleSentence : Json := .obj
  [("index", .num 1), ("text", .str "Shalom"), ("cleanText", .str "Shalom"),
   ("translations", .arr []), ("timestamp", .arr [.null, .null])]

/-- A structurally valid `Paragraph` document. -/
def sampleParagraph : Json := .obj
  [("index", .num 0), ("style", .str "p"),
   ("sentences", .arr [sampleSentence])]

/-- A structurally valid `Collection` document. -/
def sampleCollection : Json := .obj
  [("id", .num 3), ("url", .str "https://www.lingq.com/col/3"),
   ("title", .str "Quick Imports"), ("description", .str ""),
   ("audio", .null), ("imageUrl", .str "img"), ("originalImageUrl", .str "img"),
   ("completedRatio", .num 0), ("completedTimes", .null),
   ("lessonsCount", .num 1), ("newWordsCount", .num 0),
   ("difficulty", .num 2), ("level", .str "Beginner 1"), ("price", .num 0),
   ("providerImageUrl", .str ""), ("sharedById", .num 9),
   ("sharedByName", .str "someone"), ("sharedByImageUrl", .str ""),
   ("sourceURLEnabled", .null), ("sourceURL", .null), ("tags", .arr []),
   ("external_type", .null), ("rosesCount", .num 0),
   ("roseGiven", .bool false), ("type", .str "collection"),
   ("scheduledForDeletion", .bool false)]

/-- A structurally valid `Lesson` document, with `id = 202`. -/
def sampleLesson : Json := .obj
  [("id", .num 202), ("title", .str "Test Lesson"),
   ("status", .str "private"), ("level", .num 1),
   ("collection", sampleCollection), ("provider", .null),
   ("image", .str "img"), ("audio", .null), ("duration", .num 0),
   ("description", .str "Test lesson"), ("accent", .null),
   ("shelves", .arr []), ("originalUrl", .str ""),
   ("external_audio", .str ""), ("tags", .arr []), ("video", .str ""),
   ("price", .num 0), ("originalImageUrl", .str "img"),
   ("imageUrl", .str "img"), ("isProtected", .null), ("isFeatured", .null),
   ("isHidden", .bool true), ("language", .str "Hebrew"),
   ("paragraphs", .arr [sampleParagraph])]

/-- A structurally valid `LessonCreateReturnType` document, with `id = 202`
    (the unconstrained fields `sharedDate`, `external_type`, `type` and
    `status` are superfluous for validation and included for realism). -/
def sampleCreateReturn : Json := .obj
  [("id", .num 202), ("contentId", .num 77), ("collectionId", .num 3),
   ("collectionTitle", .str "Quick Imports"),
   ("url", .str "https://www.lingq.com/lesson/202"), ("originalUrl", .null),
   ("imageUrl", .str "img"), ("originalImageUrl", .str "img"),
   ("providerImageUrl", .str ""), ("title", .str "Test Lesson"),
   ("description", .str "Test lesson"), ("duration", .num 0),
   ("audioUrl", .null), ("audioPending", .bool false),
   ("giveRoseUrl", .str ""), ("wordCount", .num 2),
   ("uniqueWordCount", .num 2), ("pubDate", .str "2025-02-10"),
   ("sharedDate", .null), ("sharedById", .num 9),
   ("sharedByName", .str "someone"), ("sharedByRole", .str "librarian"),
   ("external_type", .null), ("type", .str "lesson"), ("status", .str "I"),
   ("pos", .num 0), ("price", .num 0),
   ("lessonURL", .str "https://www.lingq.com/lesson/202/editor")]

/-- A structurally valid `LessonWordsGetReturnValue` document with empty
    `cards` and `words` mappings. -/
def sampleWords : Json := .obj [("cards", .obj []), ("words", .obj [])]

/-- A blocking group `OUTER` whose first child is a failing blocking test
    and whose second child is a nested group `INNER` with one test `U`:
    running it skips `INNER`, and `U`'s recorded skip reason is built from
    `INNER`'s name, not `OUTER`'s. -/
def cexGroup : TestCase :=
  .group "OUTER" true
    [.test "A" true (.error "boom"),
     .group "INNER" true [.test "U" true (.ok ())]]

/-! ## Helper lemmas -/

theorem prefixList_append_self (xs ys : List Char) :
    prefixList xs (xs ++ ys) = true := by
  induction xs with
  | nil => rfl
  | cons a as ih => simp [prefixList, ih]

theorem occursIn_of_prefix (xs hay : List Char)
    (h : prefixList xs hay = true) : occursIn xs hay = true := by
  cases hay with
  | nil => simpa [occursIn] using h
  | cons a rest => simp [occursIn, h]

theorem occursIn_append (as xs bs : List Char) :
    occursIn xs (as ++ (xs ++ bs)) = true := by
  induction as with
  | nil => exact occursIn_of_prefix xs (xs ++ bs) (prefixList_append_self xs bs)
  | cons a as ih => simp [List.cons_append, occursIn, ih]

theorem mentions_blockedReason (g : String) :
    mentions (blockedReason g) g = true := by
  unfold mentions blockedReason
  rw [String.data_append, String.data_append, List.append_assoc]
  exact occursIn_append _ _ _

theorem lessonGet_fst (api : LingqAPI) (code : Option Int)
    (resp : HttpResponse) :
    (api.lessonGet code resp).1 =
      { api with lessonCode := code.getD api.lessonCode } := by
  obtain ⟨ok, body⟩ := resp
  cases ok <;> rcases body with _ | j <;>
    simp [LingqAPI.lessonGet, apply_ite]

/-! ## Claim theorems -/

/-- C1: for every pair of flags, `buildHeaders` yields the common headers
    unchanged, plus a `Cookie` header that always contains both the CSRF
    cookie (`csrftoken=<csrfToken>`) and the session cookie
    (`wwwlingqcomsa=<sessionId>`), plus `Content-Type: application/json`
    iff `isPost`, plus an `X-CSRFToken` header iff `includeCsrf`; and when
    `includeCsrf` is set, the token embedded in the `Cookie` string equals
    the `X-CSRFToken` value. -/
theorem buildHeaders_policy (languageCode : String) (lessonCode : Int)
    (csrfToken sessionId : String) ( isPost includeCsrf : Bool) :
    (includeCsrf = true →
      ((LingqAPI.make languageCode lessonCode csrfToken
          sessionId).buildHeaders isPost includeCsrf).xCsrfToken =
        some csrfToken ∧
      ((LingqAPI.make languageCode lessonCode csrfToken
          sessionId).buildHeaders isPost includeCsrf).cookie =
        some ("csrftoken=" ++ csrfToken ++ "; wwwlingqcomsa=" ++
          sessionId ++ ";")) ∧
    ((LingqAPI.make languageCode lessonCode csrfToken
        sessionId).buildHeaders isPost includeCsrf).cookie =
      some (LingqAPI.make languageCode lessonCode csrfToken
        sessionId).cookieString ∧
    ((LingqAPI.make languageCode lessonCode csrfToken
        sessionId).buildHeaders isPost includeCsrf).contentType =
      (if isPost then some "application/json" else none) ∧
    ((LingqAPI.make languageCode lessonCode csrfToken
        sessionId).buildHeaders isPost includeCsrf).xCsrfToken =
      (if includeCsrf then some csrfToken else none) ∧
    { ((LingqAPI.make languageCode lessonCode csrfToken
          sessionId).buildHeaders isPost includeCsrf) with
        cookie := none, contentType := none, xCsrfToken := none } =
      (LingqAPI.make languageCode lessonCode csrfToken
        sessionId).commonHeaders := by
  cases isPost <;> cases includeCsrf <;>
    simp [LingqAPI.buildHeaders, LingqAPI.cookieString, LingqAPI.make]

/-- Witness for C1 at a concrete client with `includeCsrf = true`. -/
theorem buildHeaders_policy_witness :
    ((LingqAPI.make "he" 123 "TKN" "SID").buildHeaders true true).xCsrfToken =
      some "TKN" ∧
    ((LingqAPI.make "he" 123 "TKN" "SID").buildHeaders true true).cookie =
      some ("csrftoken=" ++ "TKN" ++ "; wwwlingqcomsa=" ++ "SID" ++ ";") :=
  (buildHeaders_policy "he" 123 "TKN" "SID" true true).1 rfl

/-- C9: `buildHeaders` operates on a spread copy of the stored common
    headers and leaves the client state unchanged, so a later call on the
    post-call client returns the same headers as on the pre-call client,
    and a call with both flags set does not make `Content-Type` or
    `X-CSRFToken` appear in a subsequent call made with both flags clear. -/
theorem buildHeaders_no_mutation (api : LingqAPI) (p c p' c' : Bool)
    (languageCode : String) (lessonCode : Int)
    (csrfToken sessionId : String) :
    (api.buildHeadersCall p c).2 = api ∧
    ((api.buildHeadersCall p' c').2.buildHeadersCall p c).1 =
      (api.buildHeadersCall p c).1 ∧
    (((LingqAPI.make languageCode lessonCode csrfToken
        sessionId).buildHeadersCall true true).2.buildHeadersCall
        false false).1.contentType = none ∧
    (((LingqAPI.make languageCode lessonCode csrfToken
        sessionId).buildHeadersCall true true).2.buildHeadersCall
        false false).1.xCsrfToken = none :=
  ⟨rfl, rfl, rfl, rfl⟩

/-- C3 (code bug): `lessonCreate`'s own doc comment says "This switches the
    the API to the newly created lesson", and the spec records the redirect
    as the call's side effect, but the method body never assigns
    `this.lessonCode`: after a successful creation returning a record with
    `id = 202`, a client whose current lesson is `101` still has lesson
    code `101`. -/
theorem lessonCreate_leaves_lessonCode :
    ((LingqAPI.make "he" 101 "TKN" "SID").lessonCreate (Json.obj [])
        ⟨true, some sampleCreateReturn⟩).2 = .ok sampleCreateReturn ∧
    sampleCreateReturn.getField "id" = some (.num 202) ∧
    ((LingqAPI.make "he" 101 "TKN" "SID").lessonCreate (Json.obj [])
        ⟨true, some sampleCreateReturn⟩).1.lessonCode = 101 ∧
    (101 : Int) ≠ 202 :=
  ⟨rfl, rfl, rfl, by decide⟩

/-- C8: `lessonGet` with an explicit override id sets the client's current
    lesson code to that id before the request is issued, so the change
    survives even when the response is not ok and the call throws the
    NotFound-equivalent error. -/
theorem lessonGet_override_persists (api : LingqAPI) (id : Int)
    (resp : HttpResponse) (body : Option Json) :
    (api.lessonGet (some id) resp).1.lessonCode = id ∧
    (api.lessonGet (some id) ⟨false, body⟩).2 =
      .error (.http "Lesson doesn't exist.") ∧
    (api.lessonGet (some id) ⟨false, body⟩).1.lessonCode = id := by
  refine ⟨?_, ?_, ?_⟩
  · rw [lessonGet_fst]; rfl
  · simp [LingqAPI.lessonGet]
  · rw [lessonGet_fst]; rfl

/-- C10: `lessonWordsGet` never inspects the response's ok flag — its
    outcome is a function of the body alone; it fails with the parse error
    exactly when the body is not JSON, succeeds on a parsed body exactly
    when the `\x7b cards, words \x7d` shape assertion passes, and never
    produces an HTTP-check error. -/
theorem lessonWordsGet_ignores_ok (api : LingqAPI) (body : Option Json)
    (o1 o2 : Bool) :
    api.lessonWordsGet ⟨o1, body⟩ = api.lessonWordsGet ⟨o2, body⟩ ∧
    ((api.lessonWordsGet ⟨o1, body⟩).2 = .error .parseFail ↔ body = none) ∧
    (∀ j : Json, body = some j →
      ((api.lessonWordsGet ⟨o1, body⟩).2 = .ok j ↔
        isLessonWordsGetReturnValue j = true)) ∧
    (∀ m : String,
      (api.lessonWordsGet ⟨o1, body⟩).2 ≠ .error (.http m)) := by
  rcases body with _ | w
  · simp [LingqAPI.lessonWordsGet]
  · by_cases hv : isLessonWordsGetReturnValue w = true
    · simp [LingqAPI.lessonWordsGet, hv]
    · simp [LingqAPI.lessonWordsGet, hv]

/-- Witness for C10: a not-ok response with a valid body still succeeds. -/
theorem lessonWordsGet_ignores_ok_witness :
    ((LingqAPI.make "he" 101 "TKN" "SID").lessonWordsGet
        ⟨false, some sampleWords⟩).2 = .ok sampleWords :=
  ((lessonWordsGet_ignores_ok (LingqAPI.make "he" 101 "TKN" "SID")
      (some sampleWords) false true).2.2.1 sampleWords rfl).mpr rfl

theorem fieldIs_num_exists (j : Json) (key : String)
    (h : j.fieldIs key Json.isNum = true) :
    ∃ n : Int, j.getField key = some (.num n) := by
  unfold Json.fieldIs at h
  cases hf : j.getField key with
  | none => rw [hf] at h; exact absurd h (by simp)
  | some v => rw [hf] at h; cases v <;> simp_all [Json.isNum]

theorem fieldIsArrOf_exists (j : Json) (key : String) (p : Json → Bool)
    (h : j.fieldIsArrOf key p = true) :
    ∃ xs : List Json, j.getField key = some (.arr xs) ∧
      ∀ x ∈ xs, p x = true := by
  unfold Json.fieldIsArrOf Json.fieldIs at h
  cases hf : j.getField key with
  | none => rw [hf] at h; exact absurd h (by simp)
  | some v =>
      rw [hf] at h
      cases v with
      | arr xs =>
          refine ⟨xs, rfl, ?_⟩
          simpa [List.all_eq_true] using h
      | null => simp at h
      | bool b => simp at h
      | num n => simp at h
      | str s => simp at h
      | obj fs => simp at h

theorem isLesson_shape (j : Json) (h : isLesson j = true) :
    (∃ n : Int, j.getField "id" = some (.num n)) ∧
    (∃ ps : List Json, j.getField "paragraphs" = some (.arr ps) ∧
      ∀ p ∈ ps, isParagraph p = true ∧
        ∃ ss : List Json, p.getField "sentences" = some (.arr ss) ∧
          ∀ s ∈ ss, isSentence s = true) := by
  simp only [isLesson, Bool.and_eq_true] at h
  have hid : j.fieldIs "id" Json.isNum = true := by tauto
  have hpars : j.fieldIsArrOf "paragraphs" isParagraph = true := by tauto
  refine ⟨fieldIs_num_exists j "id" hid, ?_⟩
  obtain ⟨ps, hps, hall⟩ := fieldIsArrOf_exists j "paragraphs" isParagraph hpars
  refine ⟨ps, hps, ?_⟩
  intro p hp
  have hpar := hall p hp
  refine ⟨hpar, ?_⟩
  have hs : p.fieldIsArrOf "sentences" isSentence = true := by
    simp only [isParagraph, Bool.and_eq_true] at hpar
    tauto
  exact fieldIsArrOf_exists p "sentences" isSentence hs

/-- C2: `lessonGet` throws the NotFound-equivalent error
    (`"Lesson doesn't exist."`) exactly when the response is not ok, and
    every value it returns successfully passes structural validation as a
    `Lesson`: it has a numeric `id` and a sequence of paragraphs, each
    paragraph containing a sequence of structurally valid sentences. -/
theorem lessonGet_spec (api : LingqAPI) (code : Option Int)
    (resp : HttpResponse) :
    ((api.lessonGet code resp).2 =
        .error (.http "Lesson doesn't exist.") ↔ resp.ok = false) ∧
    (∀ j : Json, (api.lessonGet code resp).2 = .ok j →
      isLesson j = true ∧
      (∃ n : Int, j.getField "id" = some (.num n)) ∧
      (∃ ps : List Json, j.getField "paragraphs" = some (.arr ps) ∧
        ∀ p ∈ ps, isParagraph p = true ∧
          ∃ ss : List Json, p.getField "sentences" = some (.arr ss) ∧
            ∀ s ∈ ss, isSentence s = true)) := by
  obtain ⟨ok, body⟩ := resp
  cases ok
  · constructor
    · simp [LingqAPI.lessonGet]
    · intro j hj
      simp [LingqAPI.lessonGet] at hj
  · rcases body with _ | l
    · constructor
      · simp [LingqAPI.lessonGet]
      · intro j hj
        simp [LingqAPI.lessonGet] at hj
    · by_cases hv : isLesson l = true
      · constructor
        · simp [LingqAPI.lessonGet, hv]
        · intro j hj
          simp [LingqAPI.lessonGet, hv] at hj
          subst hj
          exact ⟨hv, isLesson_shape l hv⟩
      · constructor
        · simp [LingqAPI.lessonGet, hv]
        · intro j hj
          simp [LingqAPI.lessonGet, hv] at hj

/-- Witness for C2: a valid lesson document is returned and satisfies the
    structural guarantees. -/
theorem lessonGet_spec_witness :
    isLesson sampleLesson = true ∧
    (∃ n : Int, sampleLesson.getField "id" = some (.num n)) ∧
    (∃ ps : List Json, sampleLesson.getField "paragraphs" = some (.arr ps) ∧
      ∀ p ∈ ps, isParagraph p = true ∧
        ∃ ss : List Json, p.getField "sentences" = some (.arr ss) ∧
          ∀ s ∈ ss, isSentence s = true) :=
  (lessonGet_spec (LingqAPI.make "he" 101 "TKN" "SID") (some 202)
    ⟨true, some sampleLesson⟩).2 sampleLesson rfl

/-- C7: the only client-instance state any method may change is the current
    lesson code: every method leaves `languageCode`, `csrfToken`,
    `sessionId` and the common headers unchanged, every method other than
    `lessonGet` leaves the whole client state unchanged, and `lessonGet`
    without an override also leaves it unchanged. -/
theorem client_frame (api : LingqAPI) (code : Option Int) (j : Json)
    (i k e : Int) (b : Bool) (s t : String) (ts : Int × Int)
    (xo : Option (Option String × Option String)) (resp : HttpResponse) :
    ((api.lessonGet code resp).1.languageCode = api.languageCode ∧
     (api.lessonGet code resp).1.csrfToken = api.csrfToken ∧
     (api.lessonGet code resp).1.sessionId = api.sessionId ∧
     (api.lessonGet code resp).1.commonHeaders = api.commonHeaders) ∧
    (api.lessonGet none resp).1 = api ∧
    (api.lessonCreate j resp).1 = api ∧
    (api.lessonDelete i resp).1 = api ∧
    (api.lessonStatsReadTimeIncrement i b s resp).1 = api ∧
    (api.lessonStatsListenTimeIncrement i b s resp).1 = api ∧
    (api.updateCardStatus i s k e resp).1 = api ∧
    (api.lessonBookmarkCreate i s resp).1 = api ∧
    (api.lessonWordsGet resp).1 = api ∧
    (api.sentenceTimestampUpdate i ts resp).1 = api ∧
    (api.sentenceTextUpdate i s resp).1 = api ∧
    (api.sentenceCreate i s b resp).1 = api ∧
    (api.sentenceDelete i resp).1 = api ∧
    (api.sentenceBreak i resp).1 = api ∧
    (api.getTTSSpeech s t xo resp).1 = api ∧
    (api.buildHeadersCall b b).2 = api := by
  obtain ⟨ok, body⟩ := resp
  cases ok <;> rcases body with _ | w <;>
    simp [lessonGet_fst, LingqAPI.lessonCreate, LingqAPI.lessonDelete,
      LingqAPI.lessonStatsReadTimeIncrement,
      LingqAPI.lessonStatsListenTimeIncrement, LingqAPI.updateCardStatus,
      LingqAPI.lessonBookmarkCreate, LingqAPI.lessonWordsGet,
      LingqAPI.sentenceTimestampUpdate, LingqAPI.sentenceTextUpdate,
      LingqAPI.sentenceCreate, LingqAPI.sentenceDelete,
      LingqAPI.sentenceBreak, LingqAPI.getTTSSpeech,
      LingqAPI.buildHeadersCall, apply_ite]

theorem runLoop_append (g : String) (b : Bool) (xs ys : List TestCase)
    (gb : Bool) :
    runLoop g b (xs ++ ys) gb =
      ((runLoop g b xs gb).1 ++
        (runLoop g b ys (runLoop g b xs gb).2).1,
       (runLoop g b ys (runLoop g b xs gb).2).2) := by
  induction xs generalizing gb with
  | nil => simp [runLoop]
  | cons c cs ih =>
      simp only [List.cons_append, runLoop]
      by_cases hbg : (b && gb) = true
      · simp [hbg, ih, List.append_assoc]
      · simp [hbg, ih, List.append_assoc]

theorem runLoop_blocked (g : String) (cs : List TestCase) :
    runLoop g true cs true = (skipRemaining g cs, true) := by
  induction cs with
  | nil => rfl
  | cons c cs ih => simp [runLoop, skipRemaining, ih]

mutual
theorem skipTestCase_failed : ∀ (tc : TestCase) (reason : String)
    (r : TestResult), r ∈ skipTestCase tc reason →
    r.passed = false ∧ r.error.isSome = true
  | .test n b f, reason, r, hr => by
      simp only [skipTestCase, List.mem_singleton] at hr
      subst hr
      exact ⟨rfl, rfl⟩
  | .group n b ts, reason, r, hr =>
      skipAll_failed n ts r (by simpa [skipTestCase] using hr)
theorem skipAll_failed : ∀ (parent : String) (ts : List TestCase)
    (r : TestResult), r ∈ skipAll parent ts →
    r.passed = false ∧ r.error.isSome = true
  | parent, [], r, hr => by simp [skipAll] at hr
  | parent, c :: cs, r, hr => by
      simp only [skipAll] at hr
      rcases List.mem_append.mp hr with h | h
      · exact skipTestCase_failed c _ r h
      · exact skipAll_failed parent cs r h
end

/-- C6: running a registered test executes its body; a completing body is
    recorded as a pass, a throwing body is caught and recorded as a failure
    carrying the exception's message (the runner itself is total, so the
    exception is never propagated), and the run signals "blocked" exactly
    when the body throws and the test is marked blocking. -/
theorem runTest_spec (name : String) (blocking : Bool)
    (fn : Except String Unit) :
    (fn = .ok () → runTest name blocking fn = ([⟨name, true, none⟩], false)) ∧
    (∀ msg : String, fn = .error msg →
      runTest name blocking fn = ([⟨name, false, some msg⟩], blocking)) ∧
    ((runTest name blocking fn).2 = true ↔
      blocking = true ∧ ∃ msg : String, fn = .error msg) := by
  cases fn with
  | ok u => cases u; simp [runTest]
  | error m => simp [runTest]

/-- Witness for C6 at a blocking test whose body throws. -/
theorem runTest_spec_witness :
    runTest "t" true (.error "boom") = ([⟨"t", false, some "boom"⟩], true) :=
  (runTest_spec "t" true (.error "boom")).2.1 "boom" rfl

/-- C5: a non-blocking group never signals "blocked" to its parent,
    whatever its children do; concretely, a sibling test after a
    non-blocking group containing a failing blocking test still runs and
    passes, both at the root and inside a blocking parent group. -/
theorem nonBlockingGroup_isolation (name : String) (tests : List TestCase) :
    (runTestCase (.group name false tests)).2 = false ∧
    runTests [.group "G" false [.test "X" true (.error "boom")],
              .test "S" true (.ok ())] =
      [⟨"X", false, some "boom"⟩, ⟨"S", true, none⟩] ∧
    runTestCase (.group "P" true
        [.group "G" false [.test "X" true (.error "boom")],
         .test "S" true (.ok ())]) =
      ([⟨"X", false, some "boom"⟩, ⟨"S", true, none⟩], false) := by
  refine ⟨?_, rfl, rfl⟩
  simp [runTestCase]

/-- C4 (counterexample): in the blocking group `OUTER` whose first child is
    a failing blocking test, the nested group `INNER` is skipped, but the
    recorded skip reason of `INNER`'s descendant `U` is built from the name
    of its immediate parent `INNER` and does not reference the triggering
    blocking group `OUTER`. -/
theorem skippedDescendant_reason_not_outer :
    runTestCase cexGroup =
      ([⟨"A", false, some "boom"⟩,
        ⟨"U", false, some (skipChildReason "INNER")⟩], true) ∧
    mentions (skipChildReason "INNER") "OUTER" = false :=
  ⟨rfl, by decide⟩

/-- C4 (amended): in a blocking group, once the already-run prefix of
    children has signalled a blocking failure, every remaining child is
    skipped instead of run and the group signals "blocked"; a remaining
    child that is itself a test records a skip reason referencing the
    triggering group's name, and every recorded descendant of a skipped
    child is marked not-passed with a skip reason (descendants of skipped
    groups get reasons referencing their immediate parent group instead of
    the triggering group). -/
theorem blockingGroup_skips_after_failure (g : String)
    (pre post : List TestCase)
    (h : (runLoop g true pre false).2 = true) :
    runTestCase (.group g true (pre ++ post)) =
      ((runLoop g true pre false).1 ++ skipRemaining g post, true) ∧
    (∀ (n : String) (b : Bool) (f : Except String Unit),
      TestCase.test n b f ∈ post →
        skipTestCase (.test n b f) (blockedReason g) =
          [⟨n, false, some (blockedReason g)⟩]) ∧
    mentions (blockedReason g) g = true ∧
    (∀ tc ∈ post, ∀ r ∈ skipTestCase tc (blockedReason g),
      r.passed = false ∧ r.error.isSome = true) := by
  refine ⟨?_, ?_, mentions_blockedReason g, ?_⟩
  · simp only [runTestCase]
    rw [runLoop_append, h, runLoop_blocked]
    simp
  · intro n b f _
    rfl
  · intro tc _ r hr
    exact skipTestCase_failed tc (blockedReason g) r hr

/-- Witness for C4's amended theorem: a blocking group with a failing
    blocking test followed by a test `B` skips `B` with the group's
    blocked-reason, which references the group's name. -/
theorem blockingGroup_skips_after_failure_witness :
    runTestCase (.group "G" true
        [.test "A" true (.error "boom"), .test "B" true (.ok ())]) =
      ([⟨"A", false, some "boom"⟩,
        ⟨"B", false, some (blockedReason "G")⟩], true) ∧
    mentions (blockedReason "G") "G" = true := by
  have h := blockingGroup_skips_after_failure "G"
      [.test "A" true (.error "boom")] [.test "B" true (.ok ())] rfl
  exact ⟨h.1, h.2.2.1⟩
